import Mathlib

/-!
Verification development for the Aranet4 BLE sensor reader
(`aranet_reader.py`).  The Python source is shallowly embedded: pure
functions become Lean functions; the BLE transport, the adapter-control
commands and the operator-facing side effects are modelled as explicit
oracles (environments) describing every possible outcome of the external
world, and each control-flow construct of the source (bounded retry
loops, try/finally teardown, the resilience loop) is translated into a
total Lean function over those oracles that additionally reports the
observable trace (call counts, sleeps, final link state) the claims talk
about.
-/

namespace AranetReader

/-- Little-endian unsigned integer of a byte list, as computed by Python
`int.from_bytes(data, byteorder='little')` (the empty list gives 0). -/
def uintLE : List Nat → Nat
  | [] => 0
  | b :: rest => b + 256 * uintLE rest

/-- Little-endian signed integer of a byte list, as computed by Python
`int.from_bytes(data, byteorder='little', signed=True)`:
two's-complement over `8*n` bits for an `n`-byte input. -/
def sintLE (l : List Nat) : Int :=
  if l.length = 0 then 0
  else if uintLE l < 2 ^ (8 * l.length - 1) then (uintLE l : Int)
  else (uintLE l : Int) - 2 ^ (8 * l.length)

/-- Python slice `data[a:b]` on a byte string: never raises, silently
shortens when the buffer is too short. -/
def pySlice (data : List Nat) (a b : Nat) : List Nat :=
  (data.drop a).take (b - a)

/-- The numeric fields of a decoded reading (`parse_current_readings`
lines 59-65).  The `timestamp` field of the Python dict is the wall
clock captured at decode time, a side channel outside the numeric
contract, and is not part of this embedding. -/
structure Reading where
  co2 : Nat
  temperature : ℚ
  humidity : Nat
  pressure : ℚ
deriving DecidableEq

/-- Embedding of `parse_current_readings` (lines 50-67).  The three
slice-based fields never raise in Python even on a short buffer; the
only failing operation is the index `data[6]`, whose `IndexError` is
caught and re-raised as the parse failure, modelled as `none`. -/
def parse_current_readings (data : List Nat) : Option Reading :=
  let co2 := uintLE (pySlice data 0 2)
  let temperature : ℚ := (sintLE (pySlice data 2 4) : ℚ) / 20
  let pressure : ℚ := (uintLE (pySlice data 4 6) : ℚ) / 10
  match data[6]? with
  | none => none
  | some h => some ⟨co2, temperature, h, pressure⟩

/-- The 7-byte example buffer from the spec's Codec test vector. -/
def c3bytes : List Nat := [0x90, 0x01, 0xD2, 0x00, 0x6E, 0x27, 0x32]

/-- Claim C4: every input buffer shorter than 7 bytes makes the decoder
fail (it never returns a reading), because the `data[6]` access raises. -/
theorem claim_C4 (data : List Nat) (h : data.length < 7) :
    parse_current_readings data = none := by
  have h6 : data[6]? = none := by
    apply List.getElem?_eq_none
    omega
  simp [parse_current_readings, h6]

/-- Concrete instantiation of `claim_C4` on the 3-byte buffer [1,2,3]. -/
theorem claim_C4_witness :
    ([1, 2, 3] : List Nat).length < 7 ∧
      parse_current_readings [1, 2, 3] = none :=
  ⟨by decide, claim_C4 [1, 2, 3] (by decide)⟩

/-- Claim C10: every buffer of length at least 7 decodes successfully,
and the decoded fields depend only on the first 7 bytes. -/
theorem claim_C10 (data : List Nat) (h : 7 ≤ data.length) :
    (parse_current_readings data).isSome = true ∧
      parse_current_readings data = parse_current_readings (data.take 7) := by
  rcases data with _ | ⟨b0, _ | ⟨b1, _ | ⟨b2, _ | ⟨b3, _ | ⟨b4, _ | ⟨b5, _ | ⟨b6, rest⟩⟩⟩⟩⟩⟩⟩ <;>
    simp only [List.length_cons, List.length_nil] at h
  all_goals first
    | omega
    | (refine ⟨?_, ?_⟩ <;> simp [parse_current_readings, pySlice])

/-- Concrete instantiation of `claim_C10` on an 8-byte buffer. -/
theorem claim_C10_witness :
    7 ≤ ([1, 2, 3, 4, 5, 6, 7, 8] : List Nat).length ∧
      ((parse_current_readings [1, 2, 3, 4, 5, 6, 7, 8]).isSome = true ∧
        parse_current_readings [1, 2, 3, 4, 5, 6, 7, 8] =
          parse_current_readings (([1, 2, 3, 4, 5, 6, 7, 8] : List Nat).take 7)) :=
  ⟨by decide, claim_C10 [1, 2, 3, 4, 5, 6, 7, 8] (by decide)⟩

/-- Claim C3 counterexample: on the spec's example buffer the decoder
does NOT produce temperature 21.0 and pressure 1005.4; the signed word
0x00D2 = 210 divided by 20 is 10.5, and 0x276E = 10094 divided by 10 is
1009.4, so the claimed reading is not the decoded one. -/
theorem claim_C3_counterexample :
    parse_current_readings c3bytes ≠
      some ⟨400, 21, 50, (10054 : ℚ) / 10⟩ := by
  norm_num [parse_current_readings, pySlice, uintLE, sintLE, c3bytes]

/-- Claim C3 as amended: the layout is little-endian with bytes[0:2]
unsigned CO2, bytes[2:4] signed (two's complement over 16 bits)
temperature divided by 20, bytes[4:6] unsigned pressure divided by 10,
byte[6] humidity; on the example buffer this yields co2 = 400,
temperature = 10.5, pressure = 1009.4, humidity = 50. -/
theorem claim_C3_amended (b0 b1 b2 b3 b4 b5 b6 x y : Nat) (rest : List Nat) :
    parse_current_readings (b0 :: b1 :: b2 :: b3 :: b4 :: b5 :: b6 :: rest) =
      some ⟨uintLE [b0, b1], (sintLE [b2, b3] : ℚ) / 20, b6,
            (uintLE [b4, b5] : ℚ) / 10⟩
  ∧ uintLE [x, y] = x + 256 * y
  ∧ sintLE [x, y] =
      (if x + 256 * y < 32768 then (x : Int) + 256 * y
       else (x : Int) + 256 * y - 65536)
  ∧ parse_current_readings c3bytes = some ⟨400, 21 / 2, 50, 5047 / 5⟩ := by
  refine ⟨by simp [parse_current_readings, pySlice, uintLE], by simp [uintLE], ?_,
    by norm_num [parse_current_readings, pySlice, uintLE, sintLE, c3bytes]⟩
  simp only [sintLE, uintLE, List.length_cons, List.length_nil]
  norm_num

/-- A BLE advertisement as seen by the scanner: `device.name` may be
absent (`None` in Python). -/
structure Device where
  name : Option String
deriving DecidableEq

/-- The name test of `find_aranet4` (line 136): `device.name and
device.name == CONFIG['TARGET_DEVICE']` — the truthiness guard makes an
empty name never match, even against an empty target. -/
def deviceMatches (target : String) (d : Device) : Bool :=
  match d.name with
  | none => false
  | some n => (!(n == "")) && (n == target)

/-- One discovery pass of `find_aranet4` (lines 135-140): the first
advertisement matching the target is the result; advertisements whose
name merely contains the family marker are only printed. -/
def scanHit (target : String) (ds : List Device) : Option Device :=
  ds.find? (deviceMatches target)

/-- Embedding of `find_aranet4` (lines 128-144): exactly `range(3)` scan
passes, early return on the first pass containing a match.  The oracle
`scan k` gives the advertisements the k-th pass would observe.  The
second component counts the discovery passes actually performed. -/
def find_aranet4 (target : String) (scan : Nat → List Device) :
    Option Device × Nat :=
  match scanHit target (scan 0) with
  | some d => (some d, 1)
  | none =>
    match scanHit target (scan 1) with
    | some d => (some d, 2)
    | none =>
      match scanHit target (scan 2) with
      | some d => (some d, 3)
      | none => (none, 3)

lemma deviceMatches_name (target : String) (d : Device)
    (h : deviceMatches target d = true) : d.name = some target := by
  cases hd : d.name with
  | none => simp [deviceMatches, hd] at h
  | some n =>
    simp only [deviceMatches, hd, Bool.and_eq_true, beq_iff_eq] at h
    simp [h.2]

lemma scanHit_name (target : String) (ds : List Device) (d : Device)
    (h : scanHit target ds = some d) : d.name = some target :=
  deviceMatches_name target d (List.find?_some h)

/-- Claim C5: the locator performs at most 3 passes; a first match in
pass 2 is returned immediately with pass 3 never run; no match in any
pass gives NotFound after the final pass; any returned device carries
exactly the target name (recognized non-target family devices are only
logged); and, since the configured target is validated non-empty, the
per-pass hit is the first advertisement whose name equals the target. -/
theorem claim_C5 (target : String) (ht : target ≠ "")
    (scan : Nat → List Device) :
    (find_aranet4 target scan).2 ≤ 3
  ∧ (∀ d, scanHit target (scan 0) = none → scanHit target (scan 1) = some d →
      find_aranet4 target scan = (some d, 2))
  ∧ (scanHit target (scan 0) = none → scanHit target (scan 1) = none →
      scanHit target (scan 2) = none → find_aranet4 target scan = (none, 3))
  ∧ (∀ d, (find_aranet4 target scan).1 = some d → d.name = some target)
  ∧ (∀ ds, scanHit target ds = ds.find? (fun d => d.name == some target)) := by
  have hmatch : ∀ d, deviceMatches target d = (d.name == some target) := by
    intro d
    cases hd : d.name with
    | none => simp [deviceMatches, hd]
    | some n =>
      simp only [deviceMatches, hd]
      by_cases hn : n = target
      · subst hn; simp [ht]
      · simp [hn]
  refine ⟨?_, ?_, ?_, ?_, ?_⟩
  · unfold find_aranet4
    rcases scanHit target (scan 0) with _ | d0 <;>
      rcases h1 : scanHit target (scan 1) with _ | d1 <;>
      rcases h2 : scanHit target (scan 2) with _ | d2 <;> simp [h1, h2]
  · intro d h0 h1
    simp [find_aranet4, h0, h1]
  · intro h0 h1 h2
    simp [find_aranet4, h0, h1, h2]
  · intro d hd
    unfold find_aranet4 at hd
    rcases h0 : scanHit target (scan 0) with _ | d0 <;> rw [h0] at hd
    · rcases h1 : scanHit target (scan 1) with _ | d1 <;> rw [h1] at hd
      · rcases h2 : scanHit target (scan 2) with _ | d2 <;> rw [h2] at hd
        · simp at hd
        · simp at hd
          exact hd ▸ scanHit_name target (scan 2) d2 h2
      · simp at hd
        exact hd ▸ scanHit_name target (scan 1) d1 h1
    · simp at hd
      exact hd ▸ scanHit_name target (scan 0) d0 h0
  · intro ds
    unfold scanHit
    congr 1
    funext d
    exact hmatch d

/-- Scan oracle for the `claim_C5` witness: pass 1 sees nothing usable,
pass 2 sees a non-target family device and then the target. -/
def c5scan : Nat → List Device := fun k =>
  if k = 1 then [⟨some "Aranet4 1ABCD"⟩, ⟨some "Aranet4 HOME"⟩] else [⟨none⟩]

/-- Concrete instantiation of `claim_C5`: the target appears first in
pass 2 and is returned after exactly 2 passes. -/
theorem claim_C5_witness :
    find_aranet4 "Aranet4 HOME" c5scan = (some ⟨some "Aranet4 HOME"⟩, 2) :=
  (claim_C5 "Aranet4 HOME" (by decide) c5scan).2.1 ⟨some "Aranet4 HOME"⟩
    (by decide) (by decide)

/-- Outcomes of the privileged adapter-control commands: each field says
whether the corresponding `subprocess.run(..., check=True)` call would
succeed. -/
structure AdapterEnv where
  hciDownOk : Bool
  hciUpOk : Bool
  stopOk : Bool
  blockOk : Bool
  unblockOk : Bool
  startOk : Bool
deriving DecidableEq

/-- Embedding of `power_cycle_bluetooth` (lines 287-311): stop the radio
service, block then unblock the radio, restart the service; any command
failure is caught and reported as `false`. -/
def power_cycle_bluetooth (e : AdapterEnv) : Bool :=
  e.stopOk && e.blockOk && e.unblockOk && e.startOk

/-- The soft-reset half of `reset_bluetooth` (lines 320-322): adapter
down then up; fails when either command fails. -/
def softResetOk (e : AdapterEnv) : Bool :=
  e.hciDownOk && e.hciUpOk

/-- Embedding of `reset_bluetooth` (lines 314-329): try the soft reset;
on failure fall back to the power cycle.  The first component is the
returned outcome, the second records whether the power cycle ran. -/
def reset_bluetooth (e : AdapterEnv) : Bool × Bool :=
  if softResetOk e then (true, false) else (power_cycle_bluetooth e, true)

/-- Claim C9: the soft reset is tried first and the power-cycle runs
exactly when the soft reset failed; the composed reset succeeds exactly
when either step succeeds, so it fails only when both fail. -/
theorem claim_C9 (e : AdapterEnv) :
    (reset_bluetooth e).1 = (softResetOk e || power_cycle_bluetooth e)
  ∧ (reset_bluetooth e).2 = !softResetOk e := by
  cases h : softResetOk e <;> simp [reset_bluetooth, h]

/-- Outcome of one cycle of `main_loop` as seen by the loop body:
either the reading was acquired and posted, or the reading was acquired
but posting failed, or `read_sensor` raised. -/
inductive CycleEvent where
  | success
  | postFailure
  | acquisitionFailure
deriving DecidableEq

/-- Observable effects of one `main_loop` iteration. -/
structure IterTrace where
  resetCalls : Nat
  sleeps : List Nat
deriving DecidableEq

/-- One iteration of `main_loop` (lines 340-366) as a transition on the
`consecutive_failures` counter.  `resetOk` is the outcome
`reset_bluetooth` would report if invoked; `poll` is the configured
polling interval.  Note the source resets the counter only when
`reset_bluetooth()` returned True (line 361-362), and sleeps the 5s
settle delay in either case. -/
def mainLoopStep (ev : CycleEvent) (resetOk : Bool) (poll : Nat)
    (failures : Nat) : Nat × IterTrace :=
  match ev with
  | .success => (0, ⟨0, [poll]⟩)
  | .postFailure => (failures + 1, ⟨0, [30]⟩)
  | .acquisitionFailure =>
    let f := failures + 1
    if 3 ≤ f then
      (if resetOk then 0 else f, ⟨1, [5, 30]⟩)
    else (f, ⟨0, [30]⟩)

/-- A finite run of `main_loop` iterations: each step carries the cycle
outcome and the adapter-reset outcome for that iteration.  Returns the
final failure counter and the total number of `reset_bluetooth`
invocations. -/
def mainLoopRun (steps : List (CycleEvent × Bool)) (poll : Nat)
    (failures : Nat) : Nat × Nat :=
  match steps with
  | [] => (failures, 0)
  | (ev, r) :: rest =>
    let s := mainLoopStep ev r poll failures
    let t := mainLoopRun rest poll s.1
    (t.1, s.2.resetCalls + t.2)

/-- Claim C2 counterexample: starting from a clean counter, three
consecutive acquisition failures with a FAILED adapter reset leave the
tally at 3, not 0 — the source resets the tally only when
`reset_bluetooth()` succeeds. -/
theorem claim_C2_counterexample :
    (mainLoopRun
      [(.acquisitionFailure, true), (.acquisitionFailure, true),
       (.acquisitionFailure, false)] 1800 0).1 ≠ 0 := by
  decide

/-- Claim C2 as amended: after exactly 3 consecutive acquisition
failures `reset_bluetooth` is invoked exactly once, followed by the 5s
settle delay (and the 30s failure sleep) regardless of the reset's
outcome; the tally is reset to 0 exactly when the reset succeeded and
keeps its value 3 when it failed; and a successful cycle always leaves
the tally at 0 for the next cycle. -/
theorem claim_C2_amended (r1 r2 r3 resetOk : Bool) (poll f : Nat) :
    mainLoopRun
        [(.acquisitionFailure, r1), (.acquisitionFailure, r2),
         (.acquisitionFailure, r3)] poll 0 =
      (if r3 then 0 else 3, 1)
  ∧ (mainLoopStep .acquisitionFailure r3 poll 2).2.sleeps = [5, 30]
  ∧ (mainLoopStep .success resetOk poll f).1 = 0 := by
  refine ⟨?_, by simp [mainLoopStep], by simp [mainLoopStep]⟩
  cases r3 <;> simp [mainLoopRun, mainLoopStep]

/-- Primary service UUID of the sensor (line 47). -/
def ARANET4_SERVICE_UUID : String := "f0cd1400-95da-4f4b-9ac8-aa55d312af0c"

/-- Current-readings characteristic UUID (line 48). -/
def ARANET4_CURRENT_READINGS_UUID : String :=
  "f0cd1503-95da-4f4b-9ac8-aa55d312af0c"

/-- A GATT service as enumerated from the connected client: its UUID and
the UUIDs of its characteristics. -/
structure BleService where
  uuid : String
  characteristics : List String
deriving DecidableEq

/-- Environment oracle for one connection session (the body of one
outer attempt of `read_sensor`, lines 206-277).  `connectRes k` is the
outcome of the k-th `client.connect()` call (`none` = success, `some e`
= the raised error, identified by a number so that propagation can be
traced); the `drop…` flags say whether the link spontaneously drops
before the corresponding step; `disconnectOk k` is the outcome of the
k-th `client.disconnect()` call in the teardown loop, and
`discFailCloses k` says whether a failed disconnect nevertheless left
the link closed. -/
structure SessionEnv where
  connectRes : Nat → Option Nat
  dropBeforeServices : Bool
  services : List BleService
  dropBeforeRead : Bool
  readOk : Bool
  readData : List Nat
  dropBeforeTeardown : Bool
  disconnectOk : Nat → Bool
  discFailCloses : Nat → Bool

/-- The session-level failures of one `read_sensor` attempt, named after
the spec taxonomy; `connectFailed` carries the propagated connect
error. -/
inductive SessErr where
  | connectFailed (e : Nat)
  | lostBeforeServices
  | serviceNotFound
  | charNotFound
  | lostBeforeRead
  | readFailed
  | parseFailed
deriving DecidableEq

/-- The `timeout` argument given to the client constructor (line 208),
which bounds each individual connect attempt. -/
def sessionConnectTimeout : Nat := 20

/-- The inner connect retry loop (lines 213-223): `range(3)` attempts,
break on the first success, re-raise the last error on the final
failure, `sleep(2)` between attempts.  Returns the outcome (winning
attempt index or propagated error), the number of `connect()` calls,
and the list of backoff sleeps taken. -/
def connectLoop (res : Nat → Option Nat) : Except Nat Nat × Nat × List Nat :=
  match res 0 with
  | none => (Except.ok 0, 1, [])
  | some _ =>
    match res 1 with
    | none => (Except.ok 1, 2, [2])
    | some _ =>
      match res 2 with
      | none => (Except.ok 2, 3, [2, 2])
      | some e => (Except.error e, 3, [2, 2])

/-- The session steps after a successful connect (lines 226-263):
liveness re-check before service enumeration, service lookup by UUID,
characteristic lookup by UUID, liveness re-check before the read, the
read itself, and the decode.  Returns the step outcome together with
the link state on leaving the body. -/
def afterConnect (env : SessionEnv) : Except SessErr Reading × Bool :=
  if env.dropBeforeServices then (Except.error SessErr.lostBeforeServices, false)
  else
    match env.services.find? (fun s => s.uuid == ARANET4_SERVICE_UUID) with
    | none => (Except.error SessErr.serviceNotFound, true)
    | some svc =>
      match svc.characteristics.find? (fun c => c == ARANET4_CURRENT_READINGS_UUID) with
      | none => (Except.error SessErr.charNotFound, true)
      | some _ =>
        if env.dropBeforeRead then (Except.error SessErr.lostBeforeRead, false)
        else if !env.readOk then (Except.error SessErr.readFailed, true)
        else
          match parse_current_readings env.readData with
          | none => (Except.error SessErr.parseFailed, true)
          | some r => (Except.ok r, true)

/-- The teardown loop of the `finally` block (lines 266-277), on fuel:
each iteration breaks immediately when the client no longer reports a
connection, otherwise calls `disconnect()`; a successful call closes
the link, sleeps 1s and breaks; on an error the loop sleeps 1s and
retries with the link state the transport is then in.  Returns the
number of `disconnect()` calls, the final link state, and the 1s
sleeps taken. -/
def teardownAux (dOk dCl : Nat → Bool) : Nat → Nat → Bool → Nat × Bool × List Nat
  | 0, _, opn => (0, opn, [])
  | fuel + 1, k, opn =>
    if opn then
      if dOk k then (1, false, [1])
      else
        let r := teardownAux dOk dCl fuel (k + 1) (!dCl k)
        (r.1 + 1, r.2.1, 1 :: r.2.2)
    else (0, opn, [])

/-- The teardown loop with its `disconnect_retry = 3` bound (line 188). -/
def teardown (dOk dCl : Nat → Bool) (opn : Bool) : Nat × Bool × List Nat :=
  teardownAux dOk dCl 3 0 opn

/-- Link state at the start of the teardown: closed when the connect
loop never succeeded, otherwise whatever the body left, possibly
dropped just before the `finally` runs. -/
def teardownOpen (env : SessionEnv) : Bool :=
  match (connectLoop env.connectRes).1 with
  | Except.error _ => false
  | Except.ok _ => (afterConnect env).2 && !env.dropBeforeTeardown

/-- Observables of one connection session. -/
structure SessResult where
  result : Except SessErr Reading
  reachedConnected : Bool
  connectCalls : Nat
  connectBackoffs : List Nat
  disconnectCalls : Nat
  teardownSleeps : List Nat
  finalOpen : Bool

/-- One connection session: the try-body of one outer `read_sensor`
attempt from the client construction through the `finally` teardown
(lines 206-277). -/
def runSession (env : SessionEnv) : SessResult :=
  let c := connectLoop env.connectRes
  let t := teardown env.disconnectOk env.discFailCloses (teardownOpen env)
  match c with
  | (Except.error e, calls, backs) =>
    ⟨Except.error (SessErr.connectFailed e), false, calls, backs, t.1, t.2.2, t.2.1⟩
  | (Except.ok _, calls, backs) =>
    ⟨(afterConnect env).1, true, calls, backs, t.1, t.2.2, t.2.1⟩

lemma afterConnect_ne_connectFailed (env : SessionEnv) (e : Nat) :
    (afterConnect env).1 ≠ Except.error (SessErr.connectFailed e) := by
  unfold afterConnect
  repeat' split
  all_goals simp

lemma afterConnect_open (env : SessionEnv)
    (h1 : env.dropBeforeServices = false) (h2 : env.dropBeforeRead = false) :
    (afterConnect env).2 = true := by
  unfold afterConnect
  rw [h1, h2]
  repeat' split
  all_goals simp_all

lemma runSession_parts (env : SessionEnv) :
    (runSession env).disconnectCalls =
        (teardown env.disconnectOk env.discFailCloses (teardownOpen env)).1
  ∧ (runSession env).teardownSleeps =
        (teardown env.disconnectOk env.discFailCloses (teardownOpen env)).2.2
  ∧ (runSession env).finalOpen =
        (teardown env.disconnectOk env.discFailCloses (teardownOpen env)).2.1 := by
  rcases h : connectLoop env.connectRes with ⟨e | v, calls, backs⟩ <;>
    simp [runSession, h]

lemma teardownAux_le (dOk dCl : Nat → Bool) (fuel : Nat) :
    ∀ k opn, (teardownAux dOk dCl fuel k opn).1 ≤ fuel := by
  induction fuel with
  | zero => intro k opn; simp [teardownAux]
  | succ n ih =>
    intro k opn
    cases opn with
    | false => simp [teardownAux]
    | true =>
      by_cases h : dOk k
      · simp [teardownAux, h]
      · simpa [teardownAux, h] using ih (k + 1) (!dCl k)

lemma teardownAux_sleeps (dOk dCl : Nat → Bool) (fuel : Nat) :
    ∀ k opn, (teardownAux dOk dCl fuel k opn).2.2 =
      List.replicate (teardownAux dOk dCl fuel k opn).1 1 := by
  induction fuel with
  | zero => intro k opn; simp [teardownAux]
  | succ n ih =>
    intro k opn
    cases opn with
    | false => simp [teardownAux]
    | true =>
      by_cases h : dOk k
      · simp [teardownAux, h]
      · simp [teardownAux, h, ih (k + 1) (!dCl k), List.replicate_succ]

lemma teardownAux_stuck_open (dOk dCl : Nat → Bool) (fuel : Nat) :
    ∀ k opn, (teardownAux dOk dCl fuel k opn).2.1 = true →
      (teardownAux dOk dCl fuel k opn).1 = fuel ∧
        ∀ j, j < fuel → dOk (k + j) = false := by
  induction fuel with
  | zero => intro k opn _; exact ⟨rfl, by omega⟩
  | succ n ih =>
    intro k opn h
    cases opn with
    | false => simp [teardownAux] at h
    | true =>
      by_cases hd : dOk k
      · simp [teardownAux, hd] at h
      · rw [teardownAux] at h ⊢
        simp only [hd, if_true, if_false, Bool.false_eq_true, ite_true,
          ite_false] at h ⊢
        obtain ⟨hc, hall⟩ := ih (k + 1) (!dCl k) h
        refine ⟨by simpa using hc, ?_⟩
        intro j hj
        cases j with
        | zero => simpa using hd
        | succ j =>
          have hj2 := hall j (by omega)
          have hkj : k + (j + 1) = k + 1 + j := by omega
          rw [hkj]
          exact hj2

lemma runSession_reached (env : SessionEnv) :
    (runSession env).reachedConnected = true ↔
      ∃ v calls backs, connectLoop env.connectRes = (Except.ok v, calls, backs) := by
  rcases h : connectLoop env.connectRes with ⟨e | v, calls, backs⟩ <;>
    simp [runSession, h]

lemma runSession_result_indep (env : SessionEnv) (dOk2 dCl2 : Nat → Bool) :
    (runSession { env with disconnectOk := dOk2, discFailCloses := dCl2 }).result =
      (runSession env).result := by
  rcases h : connectLoop env.connectRes with ⟨e | v, calls, backs⟩
  · have h2 : connectLoop
        ({ env with disconnectOk := dOk2, discFailCloses := dCl2 } :
          SessionEnv).connectRes = (Except.error e, calls, backs) := h
    simp [runSession, h, h2]
  · have h2 : connectLoop
        ({ env with disconnectOk := dOk2, discFailCloses := dCl2 } :
          SessionEnv).connectRes = (Except.ok v, calls, backs) := h
    have h3 : afterConnect
        { env with disconnectOk := dOk2, discFailCloses := dCl2 } =
          afterConnect env := rfl
    simp [runSession, h, h2, h3]

/-- Session environment for the C1 counterexample: the connect succeeds
at once, then the link drops before service discovery, so the teardown
sees a closed link and never calls disconnect. -/
def c1env : SessionEnv :=
  ⟨fun _ => none, true, [], false, true, [], false, fun _ => true, fun _ => false⟩

/-- Claim C1 counterexample: a session that reached Connected whose link
dropped before service discovery invokes disconnect ZERO times during
teardown (the `is_connected` guard short-circuits the loop), refuting
"disconnect is invoked exactly once" for that execution. -/
theorem claim_C1_counterexample :
    ¬ ((runSession c1env).reachedConnected = true →
        (runSession c1env).disconnectCalls = 1 ∧
          (runSession c1env).finalOpen = false) := by
  decide

/-- Claim C1 as amended: in every session the teardown runs exactly
once, calling disconnect at most 3 times and pausing 1s after each
call; the session result is entirely independent of the disconnect
outcomes (teardown errors are never propagated); the link can remain
open after the session only when all 3 disconnect attempts were made
and every one failed; and on the ordinary path — session reached
Connected, link never dropped, first disconnect succeeds — disconnect
is invoked exactly once and the connection is closed afterwards. -/
theorem claim_C1_amended (env : SessionEnv) (dOk2 dCl2 : Nat → Bool) :
    (runSession env).disconnectCalls ≤ 3
  ∧ (runSession env).teardownSleeps =
      List.replicate (runSession env).disconnectCalls 1
  ∧ (runSession { env with disconnectOk := dOk2, discFailCloses := dCl2 }).result =
      (runSession env).result
  ∧ ((runSession env).finalOpen = true →
      (runSession env).disconnectCalls = 3 ∧
        ∀ j, j < 3 → env.disconnectOk j = false)
  ∧ ((runSession env).reachedConnected = true → env.dropBeforeServices = false →
      env.dropBeforeRead = false → env.dropBeforeTeardown = false →
      env.disconnectOk 0 = true →
      (runSession env).disconnectCalls = 1 ∧
        (runSession env).finalOpen = false) := by
  obtain ⟨p1, p2, p3⟩ := runSession_parts env
  refine ⟨?_, ?_, runSession_result_indep env dOk2 dCl2, ?_, ?_⟩
  · rw [p1]
    exact teardownAux_le _ _ 3 0 _
  · rw [p2, p1]
    exact teardownAux_sleeps _ _ 3 0 _
  · intro hfo
    rw [p3] at hfo
    obtain ⟨hc, hall⟩ :=
      teardownAux_stuck_open env.disconnectOk env.discFailCloses 3 0 _ hfo
    rw [p1]
    exact ⟨hc, fun j hj => by simpa using hall j hj⟩
  · intro hr h1 h2 h3 hd0
    obtain ⟨v, calls, backs, hc⟩ := (runSession_reached env).mp hr
    have hopen : teardownOpen env = true := by
      unfold teardownOpen
      rw [hc]
      simp [afterConnect_open env h1 h2, h3]
    rw [p1, p3, hopen]
    simp [teardown, teardownAux, hd0]

/-- Session environment for the `claim_C1_amended` witness: a fully
ordinary failure-free teardown. -/
def c1wenv : SessionEnv :=
  ⟨fun _ => none, false, [], false, true, [], false, fun _ => true, fun _ => false⟩

/-- Concrete instantiation of `claim_C1_amended` on an ordinary
session: one disconnect call, link closed afterwards. -/
theorem claim_C1_witness :
    (runSession c1wenv).disconnectCalls = 1 ∧
      (runSession c1wenv).finalOpen = false :=
  (claim_C1_amended c1wenv (fun _ => false) (fun _ => true)).2.2.2.2
    (by decide) rfl rfl rfl rfl

/-- Claim C6: within one session, at most 3 connect calls are made,
each bounded by the 20s client timeout; the session fails with
ConnectFailed carrying the LAST connect error exactly when all 3
attempts fail; the session proceeds past the connect step exactly when
some attempt succeeds; and the first success stops the loop, with a 2s
backoff recorded after each failed non-final attempt. -/
theorem claim_C6 (env : SessionEnv) :
    (runSession env).connectCalls ≤ 3
  ∧ sessionConnectTimeout = 20
  ∧ (∀ e, (runSession env).result = Except.error (SessErr.connectFailed e) ↔
      (env.connectRes 0 ≠ none ∧ env.connectRes 1 ≠ none ∧
        env.connectRes 2 = some e))
  ∧ ((runSession env).reachedConnected = true ↔
      (env.connectRes 0 = none ∨ env.connectRes 1 = none ∨
        env.connectRes 2 = none))
  ∧ (env.connectRes 0 = none →
      (runSession env).connectCalls = 1 ∧ (runSession env).connectBackoffs = [])
  ∧ (∀ a, env.connectRes 0 = some a → env.connectRes 1 = none →
      (runSession env).connectCalls = 2 ∧
        (runSession env).connectBackoffs = [2])
  ∧ (∀ a b, env.connectRes 0 = some a → env.connectRes 1 = some b →
      (runSession env).connectCalls = 3 ∧
        (runSession env).connectBackoffs = [2, 2]) := by
  have hne := afterConnect_ne_connectFailed env
  rcases h0 : env.connectRes 0 with _ | a0 <;>
  rcases h1 : env.connectRes 1 with _ | a1 <;>
  rcases h2 : env.connectRes 2 with _ | a2 <;>
    simp [runSession, connectLoop, h0, h1, h2, hne, sessionConnectTimeout]

/-- Session environment for the `claim_C6` witness: first connect
attempt fails, second succeeds. -/
def c6wenv : SessionEnv :=
  ⟨fun k => if k = 0 then some 7 else none, false, [], false, true, [], false,
   fun _ => true, fun _ => false⟩

/-- Concrete instantiation of `claim_C6`: a failure then a success gives
2 connect calls and a single 2s backoff. -/
theorem claim_C6_witness :
    (runSession c6wenv).connectCalls = 2 ∧
      (runSession c6wenv).connectBackoffs = [2] :=
  (claim_C6 c6wenv).2.2.2.2.2.1 7 (by decide) (by decide)

/-- Claim C7: the session fails with LostConnection-before-services
exactly when it reached Connected and the link had dropped at the
liveness re-check before service enumeration, and it fails with
ServiceNotFound exactly when it reached Connected, the link was still
open at that check, and no enumerated service carries the sensor's
primary service UUID. -/
theorem claim_C7 (env : SessionEnv) :
    ((runSession env).result = Except.error SessErr.lostBeforeServices ↔
      (runSession env).reachedConnected = true ∧
        env.dropBeforeServices = true)
  ∧ ((runSession env).result = Except.error SessErr.serviceNotFound ↔
      (runSession env).reachedConnected = true ∧
        env.dropBeforeServices = false ∧
        env.services.find? (fun s => s.uuid == ARANET4_SERVICE_UUID) = none) := by
  rcases h : connectLoop env.connectRes with ⟨e | v, calls, backs⟩
  · simp [runSession, h]
  · simp only [runSession, h]
    constructor
    · unfold afterConnect
      repeat' split
      all_goals simp_all
    · unfold afterConnect
      repeat' split
      all_goals simp_all

/-- Session environment for the `claim_C7` witness: connect succeeds,
then the link drops before service discovery. -/
def c7wenv : SessionEnv :=
  ⟨fun _ => none, true, [⟨ARANET4_SERVICE_UUID, [ARANET4_CURRENT_READINGS_UUID]⟩],
   false, true, [], false, fun _ => true, fun _ => false⟩

/-- Concrete instantiation of `claim_C7`: the dropped link yields
LostConnection, not a service error. -/
theorem claim_C7_witness :
    (runSession c7wenv).result = Except.error SessErr.lostBeforeServices :=
  (claim_C7 c7wenv).1.mpr ⟨by decide, rfl⟩

/-- The failures one outer `read_sensor` attempt can raise: no device
found, pairing failure, or a session failure. -/
inductive AcqErr where
  | noDevice
  | pairFailed
  | sessionFault (e : SessErr)
deriving DecidableEq

/-- Environment oracle for one outer attempt of `read_sensor`: the scan
results its `find_aranet4()` call would observe, the outcome its
`pair_device()` call would have, and the session environment for its
connection session. -/
structure AttemptEnv where
  scans : Nat → List Device
  pairOk : Bool
  sess : SessionEnv

/-- One outer attempt of `read_sensor` (lines 190-263): locate the
device (fall out on none), evaluate the pairing flag — pairing runs
only when the flag is set, and a successful pairing clears the flag
(line 204) — then run the connection session.  Returns the attempt
result, the pairing flag for the next attempt, and whether
`pair_device` was invoked. -/
def attemptOutcome (target : String) (env : AttemptEnv) (flag : Bool) :
    Except AcqErr Reading × Bool × Bool :=
  match (find_aranet4 target env.scans).1 with
  | none => (Except.error AcqErr.noDevice, flag, false)
  | some _ =>
    if flag then
      if env.pairOk then
        match (runSession env.sess).result with
        | Except.ok r => (Except.ok r, false, true)
        | Except.error e => (Except.error (AcqErr.sessionFault e), false, true)
      else (Except.error AcqErr.pairFailed, flag, true)
    else
      match (runSession env.sess).result with
      | Except.ok r => (Except.ok r, flag, false)
      | Except.error e => (Except.error (AcqErr.sessionFault e), flag, false)

/-- Observables of a whole `read_sensor` call. -/
structure RSTrace where
  attemptsRun : Nat
  locateCalls : Nat
  pairCalls : Nat
  outerBackoffs : List Nat
deriving DecidableEq

/-- Embedding of the outer retry loop of `read_sensor` (lines 183-285):
`max_retries = 3` attempts, each re-invoking the locator and
re-evaluating the pairing flag; a failed non-final attempt is only
logged and followed by the `retry_delay = 5` backoff; the final
attempt's failure is re-raised.  `envs k` is the world the k-th attempt
would encounter. -/
def read_sensor (target : String) (envs : Nat → AttemptEnv) (flag : Bool) :
    Except AcqErr Reading × RSTrace :=
  let a0 := attemptOutcome target (envs 0) flag
  match a0.1 with
  | Except.ok r => (Except.ok r, ⟨1, 1, a0.2.2.toNat, []⟩)
  | Except.error _ =>
    let a1 := attemptOutcome target (envs 1) a0.2.1
    match a1.1 with
    | Except.ok r => (Except.ok r, ⟨2, 2, a0.2.2.toNat + a1.2.2.toNat, [5]⟩)
    | Except.error _ =>
      let a2 := attemptOutcome target (envs 2) a1.2.1
      (a2.1, ⟨3, 3, a0.2.2.toNat + a1.2.2.toNat + a2.2.2.toNat, [5, 5]⟩)

/-- Claim C8: at most 3 outer attempts, the locator re-invoked on every
attempt actually run; when all three attempts fail, the third attempt's
failure is the one propagated, after 3 locator invocations and two 5s
backoffs; a first-attempt success returns immediately with a single
locator invocation and no backoff; and with the pairing flag set,
pairing is re-evaluated (and on pairing failure re-attempted) on every
one of the 3 attempts rather than cached. -/
theorem claim_C8 (target : String) (envs : Nat → AttemptEnv) (flag : Bool) :
    (read_sensor target envs flag).2.attemptsRun ≤ 3
  ∧ (read_sensor target envs flag).2.locateCalls =
      (read_sensor target envs flag).2.attemptsRun
  ∧ (∀ e0 e1 e2,
      (attemptOutcome target (envs 0) flag).1 = Except.error e0 →
      (attemptOutcome target (envs 1)
          (attemptOutcome target (envs 0) flag).2.1).1 = Except.error e1 →
      (attemptOutcome target (envs 2)
          (attemptOutcome target (envs 1)
            (attemptOutcome target (envs 0) flag).2.1).2.1).1 =
        Except.error e2 →
      (read_sensor target envs flag).1 = Except.error e2 ∧
        (read_sensor target envs flag).2.attemptsRun = 3 ∧
        (read_sensor target envs flag).2.locateCalls = 3 ∧
        (read_sensor target envs flag).2.outerBackoffs = [5, 5])
  ∧ (∀ r, (attemptOutcome target (envs 0) flag).1 = Except.ok r →
      (read_sensor target envs flag).1 = Except.ok r ∧
        (read_sensor target envs flag).2.locateCalls = 1 ∧
        (read_sensor target envs flag).2.outerBackoffs = [])
  ∧ (flag = true →
      (∀ k, k < 3 → ((find_aranet4 target (envs k).scans).1.isSome = true ∧
        (envs k).pairOk = false)) →
      (read_sensor target envs flag).1 = Except.error AcqErr.pairFailed ∧
        (read_sensor target envs flag).2.pairCalls = 3) := by
  refine ⟨?_, ?_, ?_, ?_, ?_⟩
  · rcases h0 : (attemptOutcome target (envs 0) flag).1 with e0 | r0 <;>
      rcases h1 : (attemptOutcome target (envs 1)
          (attemptOutcome target (envs 0) flag).2.1).1 with e1 | r1 <;>
      simp [read_sensor, h0, h1]
  · rcases h0 : (attemptOutcome target (envs 0) flag).1 with e0 | r0 <;>
      rcases h1 : (attemptOutcome target (envs 1)
          (attemptOutcome target (envs 0) flag).2.1).1 with e1 | r1 <;>
      simp [read_sensor, h0, h1]
  · intro e0 e1 e2 h0 h1 h2
    simp [read_sensor, h0, h1, h2]
  · intro r h0
    simp [read_sensor, h0]
  · intro hf hall
    obtain ⟨hd0, hp0⟩ := hall 0 (by omega)
    obtain ⟨hd1, hp1⟩ := hall 1 (by omega)
    obtain ⟨hd2, hp2⟩ := hall 2 (by omega)
    obtain ⟨d0, hd0s⟩ := Option.isSome_iff_exists.mp hd0
    obtain ⟨d1, hd1s⟩ := Option.isSome_iff_exists.mp hd1
    obtain ⟨d2, hd2s⟩ := Option.isSome_iff_exists.mp hd2
    have ha0 : attemptOutcome target (envs 0) flag =
        (Except.error AcqErr.pairFailed, true, true) := by
      rw [hf]
      simp [attemptOutcome, hd0s, hp0]
    have ha1 : attemptOutcome target (envs 1) true =
        (Except.error AcqErr.pairFailed, true, true) := by
      simp [attemptOutcome, hd1s, hp1]
    have ha2 : attemptOutcome target (envs 2) true =
        (Except.error AcqErr.pairFailed, true, true) := by
      simp [attemptOutcome, hd2s, hp2]
    simp [read_sensor, ha0, ha1, ha2]

/-- Attempt environment for the `claim_C8` witness: the scanner always
sees the target but pairing always fails. -/
def c8wenv : AttemptEnv :=
  ⟨fun _ => [⟨some "A4"⟩], false,
   ⟨fun _ => none, false, [], false, true, [], false, fun _ => true,
    fun _ => false⟩⟩

/-- Concrete instantiation of `claim_C8`: with the pairing flag set and
pairing failing on every attempt, the propagated failure is the pairing
failure and pairing was attempted on all 3 outer attempts. -/
theorem claim_C8_witness :
    (read_sensor "A4" (fun _ => c8wenv) true).1 =
        Except.error AcqErr.pairFailed ∧
      (read_sensor "A4" (fun _ => c8wenv) true).2.pairCalls = 3 :=
  (claim_C8 "A4" (fun _ => c8wenv) true).2.2.2.2 rfl (by decide)

end AranetReader
